import Mathlib

/-!
Verification of the vecrec 2D geometry library (src/vecrec/shapes.py).

The embedding models the coercion layer, the Vector operator-overload
protocol, and the Rect containment predicates.  Python numbers are
modelled as exact rationals; the magnitude and normalize operations,
which use a square root, are modelled over the reals.  Exceptions are
modelled with Except, and in-place mutation is modelled by returning the
final state of the receiver together with the outcome.
-/

namespace Vecrec

/-- The Vector class: a mutable pair of coordinates.  The element type is
a parameter so that the arithmetic protocol can be stated over the exact
rationals while magnitude and normalize are stated over the reals. -/
structure Vector (α : Type) where
  x : α
  y : α
deriving DecidableEq

/-- The Rect class: stored fields left, bottom, width and height, in the
order of the Python constructor Rect(left, bottom, width, height). -/
structure Rect where
  left : ℚ
  bottom : ℚ
  width : ℚ
  height : ℚ
deriving DecidableEq

/-- Rect.get_right: the right edge is derived as left + width. -/
def Rect.right (r : Rect) : ℚ := r.left + r.width

/-- Rect.get_top: the top edge is derived as bottom + height. -/
def Rect.top (r : Rect) : ℚ := r.bottom + r.height

/-- The universe of Python values the coercion layer can receive.  Each
constructor records exactly the structure the duck-typed code can
observe: a Vector instance; a two-element tuple of numbers; a
namedtuple-like object that is both a two-element iterable (a, b) and
carries x and y attributes; an object with x and y attributes only; a
Rect instance; an object with the four Shape attributes; a bare numeric
scalar; or anything else. -/
inductive PyVal where
  | vec (v : Vector ℚ)
  | pair (a b : ℚ)
  | pairXY (a b x y : ℚ)
  | xyObj (x y : ℚ)
  | rectVal (r : Rect)
  | shapeObj (bottom left width height : ℚ)
  | scalar (q : ℚ)
  | foreign
deriving DecidableEq

/-- The exceptions raised by the library: VectorCastError and
RectCastError carry the rejected value; ZeroDivisionError comes from the
underlying arithmetic; NullVectorError from normalize; TypeError stands
for a Python TypeError raised by applying arithmetic to a non-numeric
operand. -/
inductive PyErr where
  | vectorCastError (v : PyVal)
  | rectCastError (v : PyVal)
  | zeroDivisionError
  | nullVectorError
  | typeError
deriving DecidableEq

/-- The attempt Vector(*input) inside cast_anything_to_vector: succeeds
exactly when the input is an iterable of exactly two elements.  A Vector
instance is itself a two-element iterable (Vector defines an iterator
yielding x then y), a two-element tuple yields its elements in order,
and a namedtuple-like value yields its tuple elements (a, b), not its x
and y attributes. -/
def tryIterPair : PyVal → Option (Vector ℚ)
  | .vec v => some v
  | .pair a b => some ⟨a, b⟩
  | .pairXY a b _ _ => some ⟨a, b⟩
  | _ => none

/-- The attempt Vector(input.x, input.y) inside cast_anything_to_vector:
succeeds exactly when the input exposes readable x and y attributes.  A
Vector instance exposes its own coordinates; a namedtuple-like value
exposes its x and y fields. -/
def tryXYAttrs : PyVal → Option (Vector ℚ)
  | .vec v => some v
  | .pairXY _ _ x y => some ⟨x, y⟩
  | .xyObj x y => some ⟨x, y⟩
  | _ => none

/-- cast_anything_to_vector: if the input is a Vector instance it is
returned unchanged; otherwise try Vector(*input); otherwise try
Vector(input.x, input.y); otherwise raise VectorCastError(input). -/
def cast_anything_to_vector (input : PyVal) : Except PyErr (Vector ℚ) :=
  match input with
  | .vec v => .ok v
  | _ =>
    match tryIterPair input with
    | some v => .ok v
    | none =>
      match tryXYAttrs input with
      | some v => .ok v
      | none => .error (.vectorCastError input)

/-- Rect.from_shape: copy the four Shape fields into a Rect.  The Python
code reads shape.bottom, shape.left, shape.width, shape.height and calls
Rect(left, bottom, width, height). -/
def Rect.from_shape (bottom left width height : ℚ) : Rect :=
  ⟨left, bottom, width, height⟩

/-- The attempt Rect.from_shape(input) inside cast_shape_to_rectangle:
succeeds exactly when the input exposes readable bottom, left, width and
height attributes.  A Rect instance exposes its own fields; neither a
Vector, a tuple, an x/y object nor a scalar does. -/
def tryShapeAttrs : PyVal → Option Rect
  | .rectVal r => some r
  | .shapeObj b l w h => some (Rect.from_shape b l w h)
  | _ => none

/-- cast_shape_to_rectangle: if the input is a Rect instance it is
returned unchanged; otherwise try Rect.from_shape(input); otherwise
raise RectCastError(input). -/
def cast_shape_to_rectangle (input : PyVal) : Except PyErr Rect :=
  match input with
  | .rectVal r => .ok r
  | _ =>
    match tryShapeAttrs input with
    | some r => .ok r
    | none => .error (.rectCastError input)

/-- Rect.from_vector: cast the input to a vector and build the zero-area
rectangle whose bottom-left corner is that point. -/
def Rect.from_vector (input : PyVal) : Except PyErr Rect :=
  match cast_anything_to_vector input with
  | .ok v => .ok ⟨v.x, v.y, 0, 0⟩
  | .error e => .error e

/-- cast_anything_to_rectangle: first try cast_shape_to_rectangle, then
Rect.from_vector, otherwise raise RectCastError(input). -/
def cast_anything_to_rectangle (input : PyVal) : Except PyErr Rect :=
  match cast_shape_to_rectangle input with
  | .ok r => .ok r
  | .error _ =>
    match Rect.from_vector input with
    | .ok r => .ok r
    | .error _ => .error (.rectCastError input)

/-- The Python comparison (other == 0) that guards the scalar branch of
the operator overloads.  Among the modelled values only a numeric scalar
can compare equal to 0: tuples, Rects, shape objects and Vectors all
compare unequal to the integer 0. -/
def pyEqZero : PyVal → Bool
  | .scalar q => q == 0
  | _ => false

/-- Extract the numeric value of a scalar operand, used when the scalar
branch of an operator overload applies the underlying arithmetic to the
operand itself. -/
def asScalar : PyVal → Option ℚ
  | .scalar q => some q
  | _ => none

/-- The helper _overload_left_side(f, scalar_ok): try to cast the
operand to a vector and apply f componentwise; on cast failure, if the
operand compares equal to 0 or scalar_ok is set, apply f against the
scalar operand on both components; otherwise raise
VectorCastError(other).  The underlying arithmetic f may itself raise
(for example ZeroDivisionError), and such an exception propagates. -/
def overload_left_side (f : ℚ → ℚ → Except PyErr ℚ) (scalar_ok : Bool)
    (self : Vector ℚ) (other : PyVal) : Except PyErr (Vector ℚ) :=
  match cast_anything_to_vector other with
  | .ok w => do
    let fx ← f self.x w.x
    let fy ← f self.y w.y
    .ok ⟨fx, fy⟩
  | .error _ =>
    if pyEqZero other || scalar_ok then
      match asScalar other with
      | some q => do
        let fx ← f self.x q
        let fy ← f self.y q
        .ok ⟨fx, fy⟩
      | none => .error .typeError
    else .error (.vectorCastError other)

/-- The helper _overload_right_side(f, scalar_ok): the reflected
variant, applying f with the operand on the left. -/
def overload_right_side (f : ℚ → ℚ → Except PyErr ℚ) (scalar_ok : Bool)
    (self : Vector ℚ) (other : PyVal) : Except PyErr (Vector ℚ) :=
  match cast_anything_to_vector other with
  | .ok w => do
    let fx ← f w.x self.x
    let fy ← f w.y self.y
    .ok ⟨fx, fy⟩
  | .error _ =>
    if pyEqZero other || scalar_ok then
      match asScalar other with
      | some q => do
        let fx ← f q self.x
        let fy ← f q self.y
        .ok ⟨fx, fy⟩
      | none => .error .typeError
    else .error (.vectorCastError other)

/-- The helper _overload_in_place(f, scalar_ok).  The Python assignment
self.x, self.y = f(self.x, x), f(self.y, y) first evaluates the whole
right-hand tuple and only then assigns both coordinates, so an
exception raised while computing either component leaves the receiver
untouched.  The result is the final state of the receiver paired with
the outcome. -/
def overload_in_place (f : ℚ → ℚ → Except PyErr ℚ) (scalar_ok : Bool)
    (self : Vector ℚ) (other : PyVal) : Vector ℚ × Except PyErr Unit :=
  match cast_anything_to_vector other with
  | .ok w =>
    match (do
      let fx ← f self.x w.x
      let fy ← f self.y w.y
      pure (fx, fy) : Except PyErr (ℚ × ℚ)) with
    | .ok (fx, fy) => (⟨fx, fy⟩, .ok ())
    | .error e => (self, .error e)
  | .error _ =>
    if pyEqZero other || scalar_ok then
      match asScalar other with
      | some q =>
        match (do
          let fx ← f self.x q
          let fy ← f self.y q
          pure (fx, fy) : Except PyErr (ℚ × ℚ)) with
        | .ok (fx, fy) => (⟨fx, fy⟩, .ok ())
        | .error e => (self, .error e)
      | none => (self, .error .typeError)
    else (self, .error (.vectorCastError other))

/-- operator.add on exact numbers: never raises. -/
def addQ (a b : ℚ) : Except PyErr ℚ := .ok (a + b)

/-- operator.sub on exact numbers: never raises. -/
def subQ (a b : ℚ) : Except PyErr ℚ := .ok (a - b)

/-- operator.mul on exact numbers: never raises. -/
def mulQ (a b : ℚ) : Except PyErr ℚ := .ok (a * b)

/-- operator.truediv: raises ZeroDivisionError on a zero divisor. -/
def truedivQ (a b : ℚ) : Except PyErr ℚ :=
  if b = 0 then .error .zeroDivisionError else .ok (a / b)

/-- operator.floordiv: floor of the exact quotient, raising
ZeroDivisionError on a zero divisor. -/
def floordivQ (a b : ℚ) : Except PyErr ℚ :=
  if b = 0 then .error .zeroDivisionError else .ok ((⌊a / b⌋ : ℤ) : ℚ)

/-- operator.mod with the Python sign convention a - b * floor(a / b),
raising ZeroDivisionError on a zero divisor. -/
def modQ (a b : ℚ) : Except PyErr ℚ :=
  if b = 0 then .error .zeroDivisionError
  else .ok (a - b * ((⌊a / b⌋ : ℤ) : ℚ))

/-- Vector.__add__ = _overload_left_side(operator.add). -/
def Vector.add (self : Vector ℚ) (other : PyVal) : Except PyErr (Vector ℚ) :=
  overload_left_side addQ false self other

/-- Vector.__radd__ = _overload_right_side(operator.add). -/
def Vector.radd (self : Vector ℚ) (other : PyVal) : Except PyErr (Vector ℚ) :=
  overload_right_side addQ false self other

/-- Vector.__iadd__ = _overload_in_place(operator.add). -/
def Vector.iadd (self : Vector ℚ) (other : PyVal) : Vector ℚ × Except PyErr Unit :=
  overload_in_place addQ false self other

/-- Vector.__sub__ = _overload_left_side(operator.sub). -/
def Vector.sub (self : Vector ℚ) (other : PyVal) : Except PyErr (Vector ℚ) :=
  overload_left_side subQ false self other

/-- Vector.__isub__ = _overload_in_place(operator.sub). -/
def Vector.isub (self : Vector ℚ) (other : PyVal) : Vector ℚ × Except PyErr Unit :=
  overload_in_place subQ false self other

/-- Vector.__imul__ = _overload_in_place(operator.mul, scalar_ok=True). -/
def Vector.imul (self : Vector ℚ) (other : PyVal) : Vector ℚ × Except PyErr Unit :=
  overload_in_place mulQ true self other

/-- Vector.__itruediv__ = _overload_in_place(operator.truediv, scalar_ok=True). -/
def Vector.itruediv (self : Vector ℚ) (other : PyVal) : Vector ℚ × Except PyErr Unit :=
  overload_in_place truedivQ true self other

/-- Vector.__ifloordiv__ = _overload_in_place(operator.floordiv, scalar_ok=True). -/
def Vector.ifloordiv (self : Vector ℚ) (other : PyVal) : Vector ℚ × Except PyErr Unit :=
  overload_in_place floordivQ true self other

/-- Vector.__imod__ = _overload_in_place(operator.mod, scalar_ok=True). -/
def Vector.imod (self : Vector ℚ) (other : PyVal) : Vector ℚ × Except PyErr Unit :=
  overload_in_place modQ true self other

/-- Vector.__eq__: cast the other value to a vector and compare
coordinates; a VectorCastError is caught and yields False. -/
def Vector.eq (self : Vector ℚ) (other : PyVal) : Bool :=
  match cast_anything_to_vector other with
  | .ok o => self.x == o.x && self.y == o.y
  | .error _ => false

/-- Vector.__ne__: the negation of Vector.__eq__. -/
def Vector.ne (self : Vector ℚ) (other : PyVal) : Bool :=
  !(self.eq other)

/-- Rect.from_dimensions: an alias for the constructor, with arguments
in the order (left, bottom, width, height). -/
def Rect.from_dimensions (left bottom width height : ℚ) : Rect :=
  ⟨left, bottom, width, height⟩

/-- Rect.from_sides: width = right - left and height = top - bottom,
then Rect.from_dimensions(left, bottom, width, height). -/
def Rect.from_sides (left top right bottom : ℚ) : Rect :=
  Rect.from_dimensions left bottom (right - left) (top - bottom)

/-- Rect.from_union applied to two inputs: cast each input with
cast_shape_to_rectangle, then build the rectangle from the least left,
greatest top, greatest right and least bottom. -/
def Rect.from_union (input1 input2 : PyVal) : Except PyErr Rect := do
  let r1 ← cast_shape_to_rectangle input1
  let r2 ← cast_shape_to_rectangle input2
  pure (Rect.from_sides (min r1.left r2.left) (max r1.top r2.top)
    (max r1.right r2.right) (min r1.bottom r2.bottom))

/-- Rect.inside, decorated with accept_shape_as_rectangle: the argument
is coerced with the strict cast_shape_to_rectangle, then the four closed
edge comparisons are evaluated. -/
def Rect.inside (self : Rect) (other : PyVal) : Except PyErr Bool :=
  match cast_shape_to_rectangle other with
  | .ok o => .ok (decide (self.left ≥ o.left ∧ self.right ≤ o.right ∧
      self.top ≤ o.top ∧ self.bottom ≥ o.bottom))
  | .error e => .error e

/-- Rect.touching, decorated with accept_anything_as_rectangle: the
argument is coerced with the permissive cast_anything_to_rectangle, then
the four strict separation tests each return False early, and True is
returned when none of them fires. -/
def Rect.touching (self : Rect) (other : PyVal) : Except PyErr Bool :=
  match cast_anything_to_rectangle other with
  | .ok o =>
    if self.top < o.bottom then .ok false
    else if self.bottom > o.top then .ok false
    else if self.left > o.right then .ok false
    else if self.right < o.left then .ok false
    else .ok true
  | .error e => .error e

/-- Rect.outside, decorated with accept_anything_as_rectangle: coerce
the argument permissively, then return the negation of touching against
the coerced rectangle. -/
def Rect.outside (self : Rect) (other : PyVal) : Except PyErr Bool :=
  match cast_anything_to_rectangle other with
  | .ok o =>
    match self.touching (.rectVal o) with
    | .ok b => .ok (!b)
    | .error e => .error e
  | .error e => .error e

/-- Rect.contains, decorated with accept_anything_as_rectangle: coerce
the argument permissively, then evaluate the four closed edge
comparisons. -/
def Rect.contains (self : Rect) (other : PyVal) : Except PyErr Bool :=
  match cast_anything_to_rectangle other with
  | .ok o => .ok (decide (self.left ≤ o.left ∧ self.right ≥ o.right ∧
      self.top ≥ o.top ∧ self.bottom ≤ o.bottom))
  | .error e => .error e

/-- Rect.set_right: store left = x - width, leaving the other three
stored fields untouched, so that the derived right edge becomes x. -/
def Rect.set_right (self : Rect) (x : ℚ) : Rect :=
  { self with left := x - self.width }

/-- Rect.set_top: store bottom = y - height, leaving the other three
stored fields untouched, so that the derived top edge becomes y. -/
def Rect.set_top (self : Rect) (y : ℚ) : Rect :=
  { self with bottom := y - self.height }

/-- Vector.get_magnitude_squared over the reals: x squared plus y
squared. -/
def Vector.magnitude_squared (self : Vector ℝ) : ℝ :=
  self.x ^ 2 + self.y ^ 2

/-- Vector.get_magnitude over the reals: the square root of the squared
magnitude. -/
noncomputable def Vector.magnitude (self : Vector ℝ) : ℝ :=
  Real.sqrt self.magnitude_squared

/-- The statement self /= q executed by Vector.normalize: a float scalar
is not vector-coercible, so the scalar branch of
_overload_in_place(operator.truediv, scalar_ok=True) applies.  Dividing
by zero raises ZeroDivisionError while computing the right-hand tuple,
before either coordinate is assigned, so the receiver is unchanged on
failure. -/
noncomputable def Vector.itruediv_scalar (self : Vector ℝ) (q : ℝ) :
    Vector ℝ × Except PyErr Unit :=
  if q = 0 then (self, .error .zeroDivisionError)
  else (⟨self.x / q, self.y / q⟩, .ok ())

/-- Vector.normalize: execute self /= self.magnitude, turning a
ZeroDivisionError into NullVectorError. -/
noncomputable def Vector.normalize (self : Vector ℝ) :
    Vector ℝ × Except PyErr Unit :=
  match self.itruediv_scalar self.magnitude with
  | (v, Except.error PyErr.zeroDivisionError) =>
    (v, Except.error PyErr.nullVectorError)
  | r => r

/-- Classification of the values accepted by cast_anything_to_vector:
Vector instances, two-element iterables and objects with x and y
attributes. -/
def vectorCoercibleB : PyVal → Bool
  | .vec _ => true
  | .pair _ _ => true
  | .pairXY _ _ _ _ => true
  | .xyObj _ _ => true
  | _ => false

/-- Classification of the values accepted by the strict
cast_shape_to_rectangle: Rect instances and objects with the four Shape
attributes. -/
def shapeCoercibleB : PyVal → Bool
  | .rectVal _ => true
  | .shapeObj _ _ _ _ => true
  | _ => false

/-- Helper: on a value outside the vector-coercible classification, the
cast raises VectorCastError carrying the rejected value. -/
theorem cast_vector_fail_of_not_coercible (p : PyVal)
    (hp : vectorCoercibleB p = false) :
    cast_anything_to_vector p = .error (.vectorCastError p) := by
  cases p <;> simp_all [vectorCoercibleB, cast_anything_to_vector,
    tryIterPair, tryXYAttrs]

/-- Helper: the right edge of a rectangle built from sides is the given
right coordinate. -/
theorem right_from_sides (l t r b : ℚ) : (Rect.from_sides l t r b).right = r := by
  simp [Rect.from_sides, Rect.from_dimensions, Rect.right]

/-- Helper: the top edge of a rectangle built from sides is the given
top coordinate. -/
theorem top_from_sides (l t r b : ℚ) : (Rect.from_sides l t r b).top = t := by
  simp [Rect.from_sides, Rect.from_dimensions, Rect.top]

/-- Claim C1: cast_anything_to_vector resolves its input in a fixed
priority order, first match wins: a Vector is returned unchanged; an
ordered pair of two numeric elements yields Vector(first, second), even
when the value also carries x and y attributes; a value exposing
readable numeric x and y attributes yields Vector(x, y); every other
value raises VectorCastError carrying the rejected value. -/
theorem cast_anything_to_vector_priority :
    (∀ v : Vector ℚ, cast_anything_to_vector (.vec v) = .ok v) ∧
    (∀ a b : ℚ, cast_anything_to_vector (.pair a b) = .ok ⟨a, b⟩) ∧
    (∀ a b x y : ℚ, cast_anything_to_vector (.pairXY a b x y) = .ok ⟨a, b⟩) ∧
    (∀ x y : ℚ, cast_anything_to_vector (.xyObj x y) = .ok ⟨x, y⟩) ∧
    (∀ p : PyVal, vectorCoercibleB p = false →
      cast_anything_to_vector p = .error (.vectorCastError p)) :=
  ⟨fun _ => rfl, fun _ _ => rfl, fun _ _ _ _ => rfl, fun _ _ => rfl,
    cast_vector_fail_of_not_coercible⟩

/-- Witness for C1: the scalar 2 is rejected with VectorCastError. -/
theorem cast_anything_to_vector_priority_witness :
    cast_anything_to_vector (.scalar 2) = .error (.vectorCastError (.scalar 2)) :=
  cast_anything_to_vector_priority.2.2.2.2 (.scalar 2) rfl

/-- Claim C3: against an operand that is neither vector-coercible nor
the scalar 0, addition and subtraction raise VectorCastError while
equality returns False and inequality returns True without raising; and
equality holds exactly when the operand coerces to a vector with the
same x and the same y. -/
theorem vector_eq_false_arith_raises :
    (∀ (v : Vector ℚ) (w : PyVal), vectorCoercibleB w = false →
      pyEqZero w = false →
      v.add w = .error (.vectorCastError w) ∧
      v.sub w = .error (.vectorCastError w) ∧
      v.eq w = false ∧ v.ne w = true) ∧
    (∀ (v : Vector ℚ) (w : PyVal),
      v.eq w = true ↔
        ∃ u : Vector ℚ, cast_anything_to_vector w = .ok u ∧
          u.x = v.x ∧ u.y = v.y) := by
  constructor
  · intro v w h1 h2
    have hc := cast_vector_fail_of_not_coercible w h1
    refine ⟨?_, ?_, ?_, ?_⟩ <;>
      simp [Vector.add, Vector.sub, Vector.eq, Vector.ne,
        overload_left_side, hc, h2]
  · intro v w
    constructor
    · intro h
      unfold Vector.eq at h
      cases hw : cast_anything_to_vector w with
      | ok u =>
        rw [hw] at h
        simp only [Bool.and_eq_true, beq_iff_eq] at h
        exact ⟨u, rfl, h.1.symm, h.2.symm⟩
      | error e => rw [hw] at h; simp at h
    · rintro ⟨u, hu, hx, hy⟩
      unfold Vector.eq
      rw [hu]
      simp [hx, hy]

/-- Witness for C3: with v = Vector(1, 2), adding the bare integer 2
raises VectorCastError, comparing against it yields False, and
comparing against the tuple (1, 2) yields True. -/
theorem vector_eq_false_arith_raises_witness :
    (Vector.mk (1 : ℚ) 2).add (.scalar 2) =
      .error (.vectorCastError (.scalar 2)) ∧
    (Vector.mk (1 : ℚ) 2).eq (.scalar 2) = false ∧
    (Vector.mk (1 : ℚ) 2).eq (.pair 1 2) = true := by
  refine ⟨?_, ?_, ?_⟩
  · exact (vector_eq_false_arith_raises.1 ⟨1, 2⟩ (.scalar 2) rfl
      (by decide)).1
  · exact (vector_eq_false_arith_raises.1 ⟨1, 2⟩ (.scalar 2) rfl
      (by decide)).2.2.1
  · exact (vector_eq_false_arith_raises.2 ⟨1, 2⟩ (.pair 1 2)).mpr
      ⟨⟨1, 2⟩, rfl, rfl, rfl⟩

/-- Claim C4: the scalar 0 is accepted as additive identity: v + 0,
0 + v and v - 0 each return a vector equal to v, and v + w - w returns
exactly v over exact arithmetic. -/
theorem vector_zero_additive_identity :
    (∀ v : Vector ℚ, v.add (.scalar 0) = .ok v ∧
      v.radd (.scalar 0) = .ok v ∧ v.sub (.scalar 0) = .ok v) ∧
    (∀ v w : Vector ℚ, ∃ s : Vector ℚ,
      v.add (.vec w) = .ok s ∧ s.sub (.vec w) = .ok v) := by
  constructor
  · intro v
    refine ⟨?_, ?_, ?_⟩ <;>
      simp [Vector.add, Vector.radd, Vector.sub, overload_left_side,
        overload_right_side, cast_anything_to_vector, tryIterPair,
        tryXYAttrs, pyEqZero, asScalar, addQ, subQ, Bind.bind, Except.bind, Pure.pure, Except.pure]
  · intro v w
    refine ⟨⟨v.x + w.x, v.y + w.y⟩, ?_, ?_⟩ <;>
      simp [Vector.add, Vector.sub, overload_left_side,
        cast_anything_to_vector, addQ, subQ, Bind.bind, Except.bind, Pure.pure, Except.pure]

/-- Claim C5: the in-place operator helper is atomic on failure.  For
every arithmetic kernel f, scalar flag, receiver and operand, whenever
the operation raises anything (a VectorCastError on a non-coercible
operand, a TypeError, or an arithmetic error such as ZeroDivisionError
raised while computing either component), the final state of the
receiver is exactly its initial state.  The seven in-place operators
(+=, -=, *=, /=, //=, %=, **=) are all instances of this helper. -/
theorem in_place_atomic_on_failure (f : ℚ → ℚ → Except PyErr ℚ)
    (scalar_ok : Bool) (v : Vector ℚ) (w : PyVal) (e : PyErr)
    (h : (overload_in_place f scalar_ok v w).2 = .error e) :
    (overload_in_place f scalar_ok v w).1 = v := by
  unfold overload_in_place at h ⊢
  cases hw : cast_anything_to_vector w with
  | ok u =>
    cases hfx : f v.x u.x with
    | error e1 => simp [hfx, Bind.bind, Except.bind, Pure.pure, Except.pure]
    | ok fx =>
      cases hfy : f v.y u.y with
      | error e2 => simp [hfx, hfy, Bind.bind, Except.bind, Pure.pure, Except.pure]
      | ok fy => simp [hw, hfx, hfy, Bind.bind, Except.bind, Pure.pure, Except.pure] at h
  | error e0 =>
    by_cases hz : (pyEqZero w || scalar_ok) = true
    · cases hq : asScalar w with
      | none => simp [hz, hq]
      | some q =>
        cases hfx : f v.x q with
        | error e1 => simp [hz, hq, hfx, Bind.bind, Except.bind, Pure.pure, Except.pure]
        | ok fx =>
          cases hfy : f v.y q with
          | error e2 => simp [hz, hq, hfx, hfy, Bind.bind, Except.bind, Pure.pure, Except.pure]
          | ok fy => simp [hw, hz, hq, hfx, hfy, Bind.bind, Except.bind, Pure.pure, Except.pure] at h
    · simp [hz]

/-- Witness for C5: dividing Vector(1, 2) in place by the tuple (1, 0)
raises ZeroDivisionError on the second component and leaves the receiver
at (1, 2); the same receiver is also unchanged by an in-place addition
of a non-coercible operand. -/
theorem in_place_atomic_on_failure_witness :
    (overload_in_place truedivQ true ⟨1, 2⟩ (.pair 1 0)).1 = ⟨1, 2⟩ ∧
    (overload_in_place addQ false ⟨1, 2⟩ .foreign).1 = ⟨1, 2⟩ :=
  ⟨in_place_atomic_on_failure truedivQ true ⟨1, 2⟩ (.pair 1 0)
      .zeroDivisionError rfl,
    in_place_atomic_on_failure addQ false ⟨1, 2⟩ .foreign
      (.vectorCastError .foreign) rfl⟩

/-- Counterexample for C2: the claim says Rect.inside accepts any
vector-coercible value without raising, but on the tuple (1/2, 1/2),
which is vector-coercible and not a Shape, inside raises
RectCastError. -/
theorem inside_point_counterexample :
    Rect.inside ⟨0, 0, 1, 1⟩ (.pair (1/2) (1/2)) =
      .error (.rectCastError (.pair (1/2) (1/2))) := rfl

/-- Claim C2 as amended: Rect.inside uses the strict shape-only
coercion, unlike touching and contains.  For every rect and every
vector-coercible value that does not satisfy the Shape capability,
inside raises RectCastError carrying the rejected value, while the
permissive coercion used by touching and contains accepts the same
value as the zero-area rectangle located at that point. -/
theorem inside_strict_shape_only (r : Rect) (p : PyVal)
    (hvec : vectorCoercibleB p = true) (hshape : shapeCoercibleB p = false) :
    r.inside p = .error (.rectCastError p) ∧
    ∃ u : Vector ℚ, cast_anything_to_vector p = .ok u ∧
      cast_anything_to_rectangle p = .ok ⟨u.x, u.y, 0, 0⟩ := by
  cases p <;> simp_all [vectorCoercibleB, shapeCoercibleB, Rect.inside,
    cast_shape_to_rectangle, tryShapeAttrs, cast_anything_to_rectangle,
    Rect.from_vector, cast_anything_to_vector, tryIterPair, tryXYAttrs]

/-- Witness for C2: the unit square rejects the tuple (1, 2) from
inside, while the permissive coercion turns the same tuple into the
zero-area rect at (1, 2). -/
theorem inside_strict_shape_only_witness :
    Rect.inside ⟨0, 0, 1, 1⟩ (.pair 1 2) =
      .error (.rectCastError (.pair 1 2)) ∧
    ∃ u : Vector ℚ, cast_anything_to_vector (.pair 1 2) = .ok u ∧
      cast_anything_to_rectangle (.pair 1 2) = .ok ⟨u.x, u.y, 0, 0⟩ :=
  inside_strict_shape_only ⟨0, 0, 1, 1⟩ (.pair 1 2) rfl rfl

/-- Helper: the left edge of a rectangle built from sides. -/
theorem left_from_sides (l t r b : ℚ) : (Rect.from_sides l t r b).left = l := rfl

/-- Helper: the bottom edge of a rectangle built from sides. -/
theorem bottom_from_sides (l t r b : ℚ) : (Rect.from_sides l t r b).bottom = b := rfl

/-- Helper: Rect.contains applied to a Rect instance evaluates the four
closed edge comparisons of the containing rectangle against the
argument. -/
theorem contains_rect_eq (u a : Rect) :
    u.contains (.rectVal a) =
      .ok (decide (u.left ≤ a.left ∧ a.right ≤ u.right ∧
        a.top ≤ u.top ∧ u.bottom ≤ a.bottom)) := by
  show Except.ok (decide (u.left ≤ a.left ∧ u.right ≥ a.right ∧
      u.top ≥ a.top ∧ u.bottom ≤ a.bottom)) = _
  congr 1

/-- Helper: Rect.inside applied to a Rect instance evaluates the four
closed edge comparisons of the receiver against the argument. -/
theorem inside_rect_eq (a b : Rect) :
    a.inside (.rectVal b) =
      .ok (decide (b.left ≤ a.left ∧ a.right ≤ b.right ∧
        a.top ≤ b.top ∧ b.bottom ≤ a.bottom)) := by
  show Except.ok (decide (a.left ≥ b.left ∧ a.right ≤ b.right ∧
      a.top ≤ b.top ∧ a.bottom ≥ b.bottom)) = _
  congr 1

/-- Helper: Rect.touching applied to a Rect instance is the closed
overlap test. -/
theorem touching_rect_eq (a b : Rect) :
    a.touching (.rectVal b) =
      .ok (decide (b.bottom ≤ a.top ∧ a.bottom ≤ b.top ∧
        a.left ≤ b.right ∧ b.left ≤ a.right)) := by
  show (if a.top < b.bottom then (Except.ok false : Except PyErr Bool)
      else if a.bottom > b.top then .ok false
      else if a.left > b.right then .ok false
      else if a.right < b.left then .ok false
      else .ok true) = _
  split_ifs with h1 h2 h3 h4
  · simp [not_le.mpr h1]
  · simp [not_le.mpr h2]
  · simp [not_le.mpr h3]
  · simp [not_le.mpr h4]
  · simp [not_lt.mp h1, not_lt.mp h2, not_lt.mp h3, not_lt.mp h4]

/-- Claim C7: the union of two rects contains both: its left is at most
each left, its right at least each right, its top at least each top and
its bottom at most each bottom, so contains holds of both operands. -/
theorem from_union_contains_both (a b : Rect) :
    ∃ u : Rect, Rect.from_union (.rectVal a) (.rectVal b) = .ok u ∧
      u.contains (.rectVal a) = .ok true ∧
      u.contains (.rectVal b) = .ok true ∧
      u.left ≤ a.left ∧ u.left ≤ b.left ∧
      a.right ≤ u.right ∧ b.right ≤ u.right ∧
      a.top ≤ u.top ∧ b.top ≤ u.top ∧
      u.bottom ≤ a.bottom ∧ u.bottom ≤ b.bottom := by
  refine ⟨Rect.from_sides (min a.left b.left) (max a.top b.top)
      (max a.right b.right) (min a.bottom b.bottom), rfl, ?_, ?_, ?_, ?_,
      ?_, ?_, ?_, ?_, ?_, ?_⟩
  · rw [contains_rect_eq]
    simp only [left_from_sides, right_from_sides, top_from_sides,
      bottom_from_sides, Except.ok.injEq, decide_eq_true_eq]
    exact ⟨min_le_left _ _, le_max_left _ _, le_max_left _ _,
      min_le_left _ _⟩
  · rw [contains_rect_eq]
    simp only [left_from_sides, right_from_sides, top_from_sides,
      bottom_from_sides, Except.ok.injEq, decide_eq_true_eq]
    exact ⟨min_le_right _ _, le_max_right _ _, le_max_right _ _,
      min_le_right _ _⟩
  · exact min_le_left _ _
  · exact min_le_right _ _
  · rw [right_from_sides]
    exact le_max_left _ _
  · rw [right_from_sides]
    exact le_max_right _ _
  · rw [top_from_sides]
    exact le_max_left _ _
  · rw [top_from_sides]
    exact le_max_right _ _
  · exact min_le_left _ _
  · exact min_le_right _ _

/-- Claim C8: touching is the closed-bound overlap test, with
edge-sharing counting as touching, and outside is its exact negation. -/
theorem touching_closed_overlap_outside_neg (a b : Rect) :
    a.touching (.rectVal b) =
      .ok (decide (b.bottom ≤ a.top ∧ a.bottom ≤ b.top ∧
        a.left ≤ b.right ∧ b.left ≤ a.right)) ∧
    a.outside (.rectVal b) =
      .ok (!decide (b.bottom ≤ a.top ∧ a.bottom ≤ b.top ∧
        a.left ≤ b.right ∧ b.left ≤ a.right)) := by
  refine ⟨touching_rect_eq a b, ?_⟩
  show (match a.touching (.rectVal b) with
      | .ok t => (Except.ok (!t) : Except PyErr Bool)
      | .error e => .error e) = _
  rw [touching_rect_eq a b]

/-- Claim C9: setting the derived right edge stores left = x - width,
and setting the derived top edge stores bottom = y - height; in both
cases the other three stored fields are untouched and the edge relations
right = left + width and top = bottom + height still hold. -/
theorem set_right_set_top_adjust_stored (r : Rect) (x y : ℚ) :
    ((r.set_right x).right = x ∧ (r.set_right x).width = r.width ∧
      (r.set_right x).bottom = r.bottom ∧
      (r.set_right x).height = r.height ∧
      (r.set_right x).left = x - r.width ∧
      (r.set_right x).right = (r.set_right x).left + (r.set_right x).width ∧
      (r.set_right x).top = (r.set_right x).bottom + (r.set_right x).height) ∧
    ((r.set_top y).top = y ∧ (r.set_top y).height = r.height ∧
      (r.set_top y).left = r.left ∧ (r.set_top y).width = r.width ∧
      (r.set_top y).bottom = y - r.height ∧
      (r.set_top y).right = (r.set_top y).left + (r.set_top y).width ∧
      (r.set_top y).top = (r.set_top y).bottom + (r.set_top y).height) := by
  refine ⟨⟨?_, rfl, rfl, rfl, rfl, rfl, rfl⟩, ⟨?_, rfl, rfl, rfl, rfl, rfl, rfl⟩⟩
  · show x - r.width + r.width = x
    ring
  · show y - r.height + r.height = y
    ring

/-- Claim C10: inside and contains are exact converses on rects,
including rects with negative width or height, both computing the same
four closed edge comparisons. -/
theorem inside_contains_exact_converse (a b : Rect) :
    a.inside (.rectVal b) = b.contains (.rectVal a) ∧
    (a.inside (.rectVal b) = .ok true ↔
      (b.left ≤ a.left ∧ a.right ≤ b.right ∧
        a.top ≤ b.top ∧ b.bottom ≤ a.bottom)) := by
  constructor
  · rw [inside_rect_eq, contains_rect_eq]
  · rw [inside_rect_eq]
    simp only [Except.ok.injEq, decide_eq_true_eq]

/-- Helper: the squared magnitude is nonnegative. -/
theorem magnitude_squared_nonneg (v : Vector ℝ) :
    0 ≤ v.magnitude_squared := by
  unfold Vector.magnitude_squared
  positivity

/-- Helper: the magnitude vanishes exactly on the null vector. -/
theorem magnitude_eq_zero_iff (v : Vector ℝ) :
    v.magnitude = 0 ↔ (v.x = 0 ∧ v.y = 0) := by
  unfold Vector.magnitude
  rw [Real.sqrt_eq_zero (magnitude_squared_nonneg v)]
  unfold Vector.magnitude_squared
  constructor
  · intro h
    constructor <;> nlinarith [sq_nonneg v.x, sq_nonneg v.y]
  · rintro ⟨hx, hy⟩
    rw [hx, hy]
    ring

/-- Claim C6: normalize scales the vector in place to unit magnitude.
For every vector with nonzero magnitude, after normalize the value is
the old value divided componentwise by the old magnitude, the outcome is
success, and the new magnitude is 1; for the null vector, normalize
raises NullVectorError and the vector is unchanged. -/
theorem normalize_unit_or_null (v : Vector ℝ) :
    ((v.x ≠ 0 ∨ v.y ≠ 0) →
      v.normalize = (⟨v.x / v.magnitude, v.y / v.magnitude⟩, .ok ()) ∧
      v.normalize.1.magnitude = 1) ∧
    ((v.x = 0 ∧ v.y = 0) →
      v.normalize = (v, .error .nullVectorError)) := by
  constructor
  · intro hne
    have hm : v.magnitude ≠ 0 := by
      intro h
      have h0 := (magnitude_eq_zero_iff v).mp h
      rcases hne with h1 | h1
      · exact h1 h0.1
      · exact h1 h0.2
    have heq : v.normalize =
        (⟨v.x / v.magnitude, v.y / v.magnitude⟩, .ok ()) := by
      unfold Vector.normalize Vector.itruediv_scalar
      rw [if_neg hm]
    refine ⟨heq, ?_⟩
    rw [heq]
    have hm2 : v.magnitude ^ 2 = v.x ^ 2 + v.y ^ 2 :=
      Real.sq_sqrt (magnitude_squared_nonneg v)
    have hunit : Vector.magnitude_squared
        ⟨v.x / v.magnitude, v.y / v.magnitude⟩ = 1 := by
      unfold Vector.magnitude_squared
      field_simp
      rw [hm2]
    show Real.sqrt (Vector.magnitude_squared
      ⟨v.x / v.magnitude, v.y / v.magnitude⟩) = 1
    rw [hunit, Real.sqrt_one]
  · rintro ⟨hx, hy⟩
    have hm : v.magnitude = 0 := (magnitude_eq_zero_iff v).mpr ⟨hx, hy⟩
    unfold Vector.normalize Vector.itruediv_scalar
    rw [if_pos hm]

/-- Witness for C6: normalizing the vector (3, 4) succeeds, yields the
componentwise division by the magnitude, and the result has unit
magnitude. -/
theorem normalize_unit_or_null_witness :
    (Vector.mk (3 : ℝ) 4).normalize =
      (⟨3 / (Vector.mk (3 : ℝ) 4).magnitude,
        4 / (Vector.mk (3 : ℝ) 4).magnitude⟩, .ok ()) ∧
    (Vector.mk (3 : ℝ) 4).normalize.1.magnitude = 1 :=
  (normalize_unit_or_null ⟨3, 4⟩).1 (Or.inl (by norm_num))

end Vecrec
